import Mathlib

/-
Verification of the FireBreath Deferred/Promise core
(src/fb-mvc2014-issue/Deferred.h).

The embedding is a shallow model of the shared result cell
(`Deferred<T>::StateData`, Deferred.h lines 62-95) and the handle API.
The C++ code is templated over a value type T; the repository only
instantiates it at FB::variant and FB::VariantList (Deferred.cpp), so the
model uses a single universal value type `FB.Val` covering the value types
the spec's examples use (int, string).  Error payloads
(std::exception_ptr) are modelled by `FB.Exc`, which records whether the
carried exception derives from std::exception (relevant because
`thenPipe` catches with `catch (std::exception e)`).

Cells live in a heap (`FB.World`) addressed by a natural-number id, which
plays the role of the shared_ptr<StateData> target.  Callbacks stored in
the cell's `resolveList` / `rejectList` are the closed set of closure
shapes the code creates (user continuations, the forwarding lambdas of
`Deferred::resolve(Promise)` and `thenPipe`, and the spec-modelled
`then` handlers), embedded as data so settlement can be interpreted.
Settlement (`StateData::resolve` / `reject`) runs callbacks synchronously
and callbacks may settle further cells, so the interpreter `FB.exec` is
indexed by fuel and is structurally recursive in it; every theorem about a
concrete scenario supplies enough fuel.  A C++ exception propagating out
of a callback (and hence out of `resolve` / `reject` / `done`) is modelled
by the `Option Exc` component of the interpreter's result.
-/

namespace FB

/-- PromiseState, Deferred.h line 25. -/
inductive PromiseState where
  | PENDING
  | RESOLVED
  | REJECTED
deriving DecidableEq

/-- Universal value type standing for the template parameter T / Uout of
Deferred and Promise (the code is only instantiated at FB::variant-like
types; int and string cover the spec's examples). -/
inductive Val where
  | vint (n : Int)
  | vstr (s : String)
deriving DecidableEq

/-- Model of std::exception_ptr payloads: `fromStd` records whether the
carried exception object derives from std::exception, which decides
whether `catch (std::exception e)` in `thenPipe` catches it. -/
structure Exc where
  fromStd : Bool
  msg : String
deriving DecidableEq

/-- Observable invocation of a user-supplied continuation: success
callbacks receive a value, failure callbacks an error payload. -/
inductive Event where
  | sCall (id : Nat) (v : Val)
  | fCall (id : Nat) (e : Exc)
deriving DecidableEq

/-- Result of invoking a `thenPipe` handler (user code returning a
Promise<Uout>): it may construct a fresh pre-resolved promise
(Promise<Uout>(u), Deferred.h line 170), a fresh pre-rejected one
(Promise<Uout>::rejected), return a handle to an existing cell, or throw. -/
inductive HRes where
  | newResolved (v : Val)
  | newRejected (e : Exc)
  | retCell (cid : Nat)
  | throwE (e : Exc)

/-- The closure shapes stored in `StateData::resolveList`
(std::function<void(T)>, Deferred.h line 93):
`user` is an opaque user continuation (its invocation is recorded in the
trace); `resolveCell tgt` is the lambda `[dfd](T v){ dfd.resolve(v); }`
(Deferred.h lines 143 and 258); `pipeDone tgt h` is `thenPipe`'s onDone
lambda (lines 255-266) capturing the target deferred and the success
handler; `thenDone tgt h` is the success path of the spec-modelled
`_doPromiseThen` (see `thenOp`). -/
inductive RCB where
  | user (id : Nat)
  | resolveCell (tgt : Nat)
  | thenDone (tgt : Nat) (h : Val → Except Exc Val)
  | pipeDone (tgt : Nat) (h : Val → HRes)

/-- The closure shapes stored in `StateData::rejectList`
(std::function<void(std::exception_ptr)>, Deferred.h line 94):
`rejectCell tgt` is `[dfd](std::exception_ptr e){ dfd.reject(e); }`
(Deferred.h lines 144, 259 and 268-270); `pipeFail tgt h` is the onFail
lambda of the two-handler `thenPipe` (lines 295-306); `thenFail` is the
failure path of the spec-modelled `_doPromiseThen`. -/
inductive ECB where
  | user (id : Nat)
  | rejectCell (tgt : Nat)
  | thenFail (tgt : Nat) (h : Exc → Except Exc Val)
  | pipeFail (tgt : Nat) (h : Exc → HRes)

/-- Deferred<T>::StateData, Deferred.h lines 62-95.  The C++ member
`T value` is default-constructed until assigned; it is modelled as
`Option Val` (`none` until `value = v` runs), and `err_ptr`
(std::exception_ptr, null until assigned) as `Option Exc`. -/
structure Cell where
  state : PromiseState
  value : Option Val
  err_ptr : Option Exc
  resolveList : List RCB
  rejectList : List ECB

/-- A heap entry: the cell plus the number of live Deferred handles
(`dRefs`) and live Promise handles (`pRefs`) sharing it - together they
model the shared_ptr<StateData> reference count.  Deferred copies
captured inside forwarding lambdas are accounted to `dRefs` by the
operation that creates them where a claim depends on it. -/
structure CellEntry where
  cell : Cell
  dRefs : Nat
  pRefs : Nat

/-- The heap of result cells plus the observable trace of user-callback
invocations.  A freed StateData leaves a `none` slot. -/
structure World where
  cells : List (Option CellEntry)
  trace : List Event

def World.empty : World := ⟨[], []⟩

def getCell (w : World) (cid : Nat) : Option CellEntry :=
  w.cells.getD cid none

def setEntry (w : World) (cid : Nat) (ent : CellEntry) : World :=
  { w with cells := w.cells.set cid (some ent) }

/-- Replace the cell data at `cid`, keeping its reference counts. -/
def updCell (w : World) (cid : Nat) (c : Cell) : World :=
  match getCell w cid with
  | none => w
  | some ent => setEntry w cid { ent with cell := c }

/-- Allocate a fresh StateData (std::make_shared<StateData>(...)). -/
def alloc (w : World) (ent : CellEntry) : World × Nat :=
  ({ w with cells := w.cells ++ [some ent] }, w.cells.length)

/-- Free a StateData whose reference count reached zero. -/
def free (w : World) (cid : Nat) : World :=
  { w with cells := w.cells.set cid none }

def addTrace (w : World) (ev : Event) : World :=
  { w with trace := w.trace ++ [ev] }

/-- Interpreter work items: `res`/`rej` are `StateData::resolve` /
`StateData::reject`; `runR`/`runE` are the callback loops inside them
(`for (auto fn : resolveList) fn(v);` etc.); `pipe tgt r` is the body of
`thenPipe`'s try block after the handler returned `r`
(`Promise<Uout> res = cbSuccess(v); res.done(onDone2, onFail2);`). -/
inductive Task where
  | res (cid : Nat) (v : Val)
  | rej (cid : Nat) (e : Exc)
  | runR (l : List RCB) (v : Val)
  | runE (l : List ECB) (e : Exc)
  | pipe (tgt : Nat) (r : HRes)

/-- Fuel-indexed interpreter for settlement and callback dispatch.
Direct transcription of `StateData::resolve` (Deferred.h lines 71-79):
assign `value`, set state RESOLVED, clear `rejectList`, run each queued
resolve callback in order with `v`, then clear `resolveList`; and of
`StateData::reject` (lines 80-88), symmetrically.  Note neither checks
the current state before overwriting.  A callback that lets a C++
exception escape aborts the loop (the remaining callbacks do not run and
the trailing `clear()` is skipped) and the exception propagates to the
settling caller, modelled by a `some` second component.  The callback
loop iterates a snapshot of the list; the C++ code iterates the live
vector, which only differs under reentrant mutation of the same list,
undefined behaviour the claims do not exercise.  `pipeDone`/`pipeFail`
wrap their body in `catch (std::exception e)` (lines 262-265, 289-292,
302-305): only exceptions derived from std::exception are caught, and the
rejection uses std::current_exception(), i.e. the original payload. -/
def exec : Nat → Task → World → World × Option Exc
  | 0, _, w => (w, none)
  | Nat.succ f, t, w =>
    match t with
    | .res cid v =>
      match getCell w cid with
      | none => (w, none)
      | some ent =>
        let fired := ent.cell.resolveList
        let w1 := updCell w cid
          { ent.cell with value := some v, state := .RESOLVED, rejectList := [] }
        match exec f (.runR fired v) w1 with
        | (w2, some e) => (w2, some e)
        | (w2, none) =>
          match getCell w2 cid with
          | none => (w2, none)
          | some ent2 => (updCell w2 cid { ent2.cell with resolveList := [] }, none)
    | .rej cid e =>
      match getCell w cid with
      | none => (w, none)
      | some ent =>
        let fired := ent.cell.rejectList
        let w1 := updCell w cid
          { ent.cell with err_ptr := some e, state := .REJECTED, resolveList := [] }
        match exec f (.runE fired e) w1 with
        | (w2, some e2) => (w2, some e2)
        | (w2, none) =>
          match getCell w2 cid with
          | none => (w2, none)
          | some ent2 => (updCell w2 cid { ent2.cell with rejectList := [] }, none)
    | .runR [] _ => (w, none)
    | .runR (cb :: rest) v =>
      match cb with
      | .user k => exec f (.runR rest v) (addTrace w (.sCall k v))
      | .resolveCell tgt =>
        match exec f (.res tgt v) w with
        | (w1, some e) => (w1, some e)
        | (w1, none) => exec f (.runR rest v) w1
      | .thenDone tgt h =>
        match (match h v with
               | .ok u => exec f (.res tgt u) w
               | .error e => exec f (.rej tgt e) w) with
        | (w1, some e) => (w1, some e)
        | (w1, none) => exec f (.runR rest v) w1
      | .pipeDone tgt h =>
        match exec f (.pipe tgt (h v)) w with
        | (w1, some e) =>
          if e.fromStd then
            match exec f (.rej tgt e) w1 with
            | (w2, some e2) => (w2, some e2)
            | (w2, none) => exec f (.runR rest v) w2
          else (w1, some e)
        | (w1, none) => exec f (.runR rest v) w1
    | .runE [] _ => (w, none)
    | .runE (cb :: rest) e =>
      match cb with
      | .user k => exec f (.runE rest e) (addTrace w (.fCall k e))
      | .rejectCell tgt =>
        match exec f (.rej tgt e) w with
        | (w1, some e2) => (w1, some e2)
        | (w1, none) => exec f (.runE rest e) w1
      | .thenFail tgt h =>
        match (match h e with
               | .ok u => exec f (.res tgt u) w
               | .error e2 => exec f (.rej tgt e2) w) with
        | (w1, some e2) => (w1, some e2)
        | (w1, none) => exec f (.runE rest e) w1
      | .pipeFail tgt h =>
        match exec f (.pipe tgt (h e)) w with
        | (w1, some e2) =>
          if e2.fromStd then
            match exec f (.rej tgt e2) w1 with
            | (w2, some e3) => (w2, some e3)
            | (w2, none) => exec f (.runE rest e) w2
          else (w1, some e2)
        | (w1, none) => exec f (.runE rest e) w1
    | .pipe tgt r =>
      match r with
      | .throwE e => (w, some e)
      | .newResolved u =>
        let p := alloc w ⟨⟨.RESOLVED, some u, none, [], []⟩, 0, 1⟩
        match exec f (.res tgt u) p.1 with
        | (w2, ex) => (free w2 p.2, ex)
      | .newRejected e =>
        let p := alloc w ⟨⟨.REJECTED, none, some e, [], []⟩, 0, 1⟩
        match exec f (.rej tgt e) p.1 with
        | (w2, ex) => (free w2 p.2, ex)
      | .retCell rcid =>
        match getCell w rcid with
        | none => (w, none)
        | some ent =>
          match ent.cell.state with
          | .PENDING =>
            (updCell w rcid { ent.cell with
                rejectList := ent.cell.rejectList ++ [.rejectCell tgt],
                resolveList := ent.cell.resolveList ++ [.resolveCell tgt] }, none)
          | .RESOLVED => exec f (.res tgt (ent.cell.value.getD (.vint 0))) w
          | .REJECTED => exec f (.rej tgt (ent.cell.err_ptr.getD ⟨true, ""⟩)) w

/-- std::make_exception_ptr(std::runtime_error(s)): a payload derived
from std::exception. -/
def runtimeError (s : String) : Exc := ⟨true, s⟩

/-- The error thrown by `done`/`fail` on an unbound promise and carried
by the rejected promise `thenPipe` returns on an unbound promise
(Deferred.h lines 252, 279, 320, 340). -/
def invalidExc : Exc := runtimeError ("Promise invalid")

/-- The error ~StateData rejects with (Deferred.h line 68). -/
def abandonedExc : Exc := runtimeError ("Deferred object destroyed: 1")

/-- The error Deferred::invalidate rejects with (Deferred.h line 134). -/
def invalidatedExc : Exc := runtimeError ("Deferred object destroyed: 2")

def pendingCell : Cell := ⟨.PENDING, none, none, [], []⟩

/-- Deferred(T v), Deferred.h line 101: fresh StateData pre-RESOLVED
with v (StateData(T v) constructor, line 63); the constructing Deferred
is the only handle. -/
def newDeferredResolved (v : Val) (w : World) : World × Nat :=
  alloc w ⟨⟨.RESOLVED, some v, none, [], []⟩, 1, 0⟩

/-- Deferred(std::exception_ptr), Deferred.h line 103 (StateData
constructor, line 64). -/
def newDeferredRejected (e : Exc) (w : World) : World × Nat :=
  alloc w ⟨⟨.REJECTED, none, some e, [], []⟩, 1, 0⟩

/-- Deferred(), Deferred.h line 105: fresh PENDING StateData. -/
def newDeferredPending (w : World) : World × Nat :=
  alloc w ⟨pendingCell, 1, 0⟩

/-- Deferred::promise(), Deferred.h line 128: a new Promise sharing the
same StateData (one more reference). -/
def promiseOf (cid : Nat) (w : World) : World × Option Nat :=
  match getCell w cid with
  | none => (w, none)
  | some ent => (setEntry w cid { ent with pRefs := ent.pRefs + 1 }, some cid)

/-- Deferred::resolve(T), Deferred.h line 139: m_data->resolve(v). -/
def resolveD (fuel cid : Nat) (v : Val) (w : World) : World × Option Exc :=
  exec fuel (.res cid v) w

/-- Deferred::reject, Deferred.h line 148: m_data->reject(ep). -/
def rejectD (fuel cid : Nat) (e : Exc) (w : World) : World × Option Exc :=
  exec fuel (.rej cid e) w

/-- Deferred::invalidate, Deferred.h lines 132-136: reject with the
"destroyed: 2" error only if still PENDING. -/
def invalidateD (fuel cid : Nat) (w : World) : World × Option Exc :=
  match getCell w cid with
  | none => (w, none)
  | some ent =>
    if ent.cell.state = PromiseState.PENDING then
      rejectD fuel cid invalidatedExc w
    else (w, none)

/-- Promise::fail, Deferred.h lines 338-351.  `m = none` models a
default-constructed promise (null m_data): it throws
runtime_error("Promise invalid").  A null cbFail returns immediately.
Otherwise: append to rejectList while PENDING, invoke synchronously with
the stored error if REJECTED, do nothing if RESOLVED. -/
def failP (fuel : Nat) (m : Option Nat) (cbF : Option ECB) (w : World) :
    World × Option Exc :=
  match m with
  | none => (w, some invalidExc)
  | some cid =>
    match cbF with
    | none => (w, none)
    | some cb =>
      match getCell w cid with
      | none => (w, none)
      | some ent =>
        match ent.cell.state with
        | .PENDING =>
          (updCell w cid
            { ent.cell with rejectList := ent.cell.rejectList ++ [cb] }, none)
        | .REJECTED => exec fuel (.runE [cb] (ent.cell.err_ptr.getD ⟨true, ""⟩)) w
        | .RESOLVED => (w, none)

/-- Promise::done, Deferred.h lines 318-334.  Throws on an unbound
promise; otherwise first registers cbFail via `fail` (which may invoke it
synchronously, and any exception it lets escape propagates before the
success handler is considered), then: a null cbSuccess returns; while
PENDING the success callback is appended to resolveList; if RESOLVED it
is invoked synchronously with the stored value; if REJECTED nothing
happens.  The C++ function returns *this. -/
def doneP (fuel : Nat) (m : Option Nat) (cbS : Option RCB) (cbF : Option ECB)
    (w : World) : World × Option Exc :=
  match m with
  | none => (w, some invalidExc)
  | some cid =>
    match failP fuel (some cid) cbF w with
    | (w1, some e) => (w1, some e)
    | (w1, none) =>
      match cbS with
      | none => (w1, none)
      | some cb =>
        match getCell w1 cid with
        | none => (w1, none)
        | some ent =>
          match ent.cell.state with
          | .PENDING =>
            (updCell w1 cid
              { ent.cell with resolveList := ent.cell.resolveList ++ [cb] }, none)
          | .RESOLVED => exec fuel (.runR [cb] (ent.cell.value.getD (.vint 0))) w1
          | .REJECTED => (w1, none)

/-- Promise::rejected, Deferred.h lines 207-211: Deferred(); reject(ep)
on the fresh cell (no callbacks queued, so reject just stores the error
and sets the state); return its promise.  The temporary Deferred dies at
return, so the returned Promise holds the only reference. -/
def promiseRejected (e : Exc) (w : World) : World × Nat :=
  alloc w ⟨⟨.REJECTED, none, some e, [], []⟩, 0, 1⟩

/-- Deferred::resolve(Promise<T>), Deferred.h lines 141-146: subscribe
forwarding lambdas on `m` that settle cell `cid` the same way. -/
def resolveWith (fuel cid : Nat) (m : Option Nat) (w : World) :
    World × Option Exc :=
  doneP fuel m (some (.resolveCell cid)) (some (.rejectCell cid)) w

/-- ~StateData, Deferred.h lines 66-70: runs when the last handle drops;
if still PENDING and rejectList.size() is non-zero, reject with the
"destroyed: 1" error (invoking the queued reject callbacks); then the
StateData storage is freed. -/
def destructState (fuel cid : Nat) (w : World) : World × Option Exc :=
  match getCell w cid with
  | none => (w, none)
  | some ent =>
    if ent.cell.state = PromiseState.PENDING ∧ ent.cell.rejectList.length ≠ 0 then
      match exec fuel (.rej cid abandonedExc) w with
      | (w1, ex) => (free w1 cid, ex)
    else (free w cid, none)

/-- Destruction of one Deferred handle (~Deferred, Deferred.h line 113,
plus the shared_ptr member): decrement the count; only when no handle of
either kind remains does ~StateData run. -/
def dropDeferred (fuel cid : Nat) (w : World) : World × Option Exc :=
  match getCell w cid with
  | none => (w, none)
  | some ent =>
    let ent1 : CellEntry := { ent with dRefs := ent.dRefs - 1 }
    if ent1.dRefs = 0 ∧ ent1.pRefs = 0 then
      destructState fuel cid (setEntry w cid ent1)
    else (setEntry w cid ent1, none)

/-- Destruction of one Promise handle: same reference-count rule. -/
def dropPromise (fuel cid : Nat) (w : World) : World × Option Exc :=
  match getCell w cid with
  | none => (w, none)
  | some ent =>
    let ent1 : CellEntry := { ent with pRefs := ent.pRefs - 1 }
    if ent1.dRefs = 0 ∧ ent1.pRefs = 0 then
      destructState fuel cid (setEntry w cid ent1)
    else (setEntry w cid ent1, none)

/-- Promise::thenPipe (single-handler overload), Deferred.h lines
249-274.  On an unbound promise, returns an already-rejected
Promise<Uout> carrying runtime_error("Promise invalid").  Otherwise a
fresh Deferred<Uout> is created and `done(onDone, onFail)` is called on
this promise with the pipeDone / rejectCell lambdas targeting it; if that
call lets an exception escape (a synchronously-invoked handler threw
something not derived from std::exception), it propagates to the caller
of thenPipe and the local Deferred is destroyed by stack unwinding
(`destructState`); otherwise `dfd.promise()` is returned.  `dRefs` of the
new cell stands for the controller copies captured in the two lambdas. -/
def thenPipe1 (fuel : Nat) (m : Option Nat) (h : Val → HRes) (w : World) :
    World × Except Exc Nat :=
  match m with
  | none =>
    match promiseRejected invalidExc w with
    | (w1, r) => (w1, .ok r)
  | some cid =>
    match alloc w ⟨pendingCell, 1, 0⟩ with
    | (w1, d) =>
      match doneP fuel (some cid) (some (.pipeDone d h)) (some (.rejectCell d)) w1 with
      | (w2, some e) => ((destructState fuel d w2).1, .error e)
      | (w2, none) =>
        match getCell w2 d with
        | none => (w2, .ok d)
        | some ent => (setEntry w2 d { ent with pRefs := ent.pRefs + 1 }, .ok d)

/-- Promise::thenPipe (two-handler overload), Deferred.h lines 276-310:
identical except the failure side also runs a handler returning a
Promise<Uout>, with the same try / catch (std::exception) wrapper. -/
def thenPipe2 (fuel : Nat) (m : Option Nat) (h : Val → HRes) (hf : Exc → HRes)
    (w : World) : World × Except Exc Nat :=
  match m with
  | none =>
    match promiseRejected invalidExc w with
    | (w1, r) => (w1, .ok r)
  | some cid =>
    match alloc w ⟨pendingCell, 1, 0⟩ with
    | (w1, d) =>
      match doneP fuel (some cid) (some (.pipeDone d h)) (some (.pipeFail d hf)) w1 with
      | (w2, some e) => ((destructState fuel d w2).1, .error e)
      | (w2, none) =>
        match getCell w2 d with
        | none => (w2, .ok d)
        | some ent => (setEntry w2 d { ent with pRefs := ent.pRefs + 1 }, .ok d)

/-- Modelled from the spec: `Promise::then` (Deferred.h lines 230-233)
delegates to `_doPromiseThen`, which is declared nowhere under src/ (it
lives in variant.h, absent from this repository), so its behaviour is
taken from the spec: a new cell of type Uout is created; when this
promise settles, the matching handler is invoked with the value or error
and its return value settles the new promise as Resolved; if the handler
raises, the new promise is Rejected with that error; a missing handler
forwards the original outcome unchanged.  Handlers are modelled as
total functions into `Except Exc Val` (`error` = the handler raised).
The spec does not fix the unbound-promise behaviour of `then`; it is
modelled like `thenPipe`, returning an already-rejected promise. -/
def thenOp (fuel : Nat) (m : Option Nat) (hs : Option (Val → Except Exc Val))
    (hf : Option (Exc → Except Exc Val)) (w : World) : World × Except Exc Nat :=
  match m with
  | none =>
    match promiseRejected invalidExc w with
    | (w1, r) => (w1, .ok r)
  | some cid =>
    match alloc w ⟨pendingCell, 1, 0⟩ with
    | (w1, d) =>
      let sCB : RCB := match hs with
        | some h => .thenDone d h
        | none => .resolveCell d
      let fCB : ECB := match hf with
        | some h => .thenFail d h
        | none => .rejectCell d
      match doneP fuel (some cid) (some sCB) (some fCB) w1 with
      | (w2, some e) => ((destructState fuel d w2).1, .error e)
      | (w2, none) =>
        match getCell w2 d with
        | none => (w2, .ok d)
        | some ent => (setEntry w2 d { ent with pRefs := ent.pRefs + 1 }, .ok d)

/-- Modelled from the spec: `Promise::convert_cast<U>` (Deferred.h lines
201-204) returns `Promise<U>(*this)`, whose converting constructor is
defined in variant.h, absent from this repository.  Per the spec it
produces a promise that resolves to the type-converted value once this
one resolves, and rejects with the conversion error if the conversion
raises.  The conversion FB::variant::convert_cast is abstracted as a
total function `conv` into `Except Exc Val` (`error` = conversion
failure).  A rejection of the original promise is forwarded unchanged. -/
def convert_cast (fuel : Nat) (m : Option Nat) (conv : Val → Except Exc Val)
    (w : World) : World × Except Exc Nat :=
  thenOp fuel m (some conv) none w

/-- Projection helpers used by the theorems. -/
def cellStateAt (w : World) (cid : Nat) : Option PromiseState :=
  (getCell w cid).map (fun ent => ent.cell.state)

def cellValueAt (w : World) (cid : Nat) : Option Val :=
  (getCell w cid).bind (fun ent => ent.cell.value)

def cellErrAt (w : World) (cid : Nat) : Option Exc :=
  (getCell w cid).bind (fun ent => ent.cell.err_ptr)

def resolveCountAt (w : World) (cid : Nat) : Option Nat :=
  (getCell w cid).map (fun ent => ent.cell.resolveList.length)

def rejectCountAt (w : World) (cid : Nat) : Option Nat :=
  (getCell w cid).map (fun ent => ent.cell.rejectList.length)

/-! Helper lemmas about the interpreter. -/

theorem exec_runR_nil (f : Nat) (v : Val) (w : World) :
    exec f (.runR [] v) w = (w, none) := by
  cases f <;> rfl

theorem exec_runE_nil (f : Nat) (e : Exc) (w : World) :
    exec f (.runE [] e) w = (w, none) := by
  cases f <;> rfl

/-- Running a list of user rejection callbacks appends one trace event per
callback, in registration order, and changes nothing else. -/
theorem exec_runE_users (ids : List Nat) (f : Nat) (e : Exc) (w : World)
    (hf : ids.length ≤ f) :
    exec f (.runE (ids.map ECB.user) e) w
      = ({ w with trace := w.trace ++ ids.map (fun k => Event.fCall k e) }, none) := by
  induction ids generalizing f w with
  | nil =>
    simp only [List.map_nil, exec_runE_nil, List.append_nil]
  | cons k rest ih =>
    cases f with
    | zero => simp at hf
    | succ f2 =>
      have hf2 : rest.length ≤ f2 := by
        simpa [Nat.succ_le_succ_iff] using hf
      simp only [List.map_cons, exec, addTrace, ih f2 _ hf2, List.map_cons,
        List.append_assoc, List.cons_append, List.nil_append]

set_option maxHeartbeats 2000000

/-! Claim theorems. -/

/-- C9: invoking `done` or `fail` on a default-constructed (unbound,
isValid() == false) Promise fails with the "Promise invalid" error - a
C++ exception local to that call, not a process abort - leaves the world
untouched (no callback is registered anywhere, no cell changes, no trace
event), and never silently succeeds, for every fuel, every choice of
callbacks, and every world. -/
theorem c9_invalid_promise_fails (fuel : Nat) (cbS : Option RCB)
    (cbF cbF2 : Option ECB) (w : World) :
    doneP fuel none cbS cbF w = (w, some invalidExc) ∧
    failP fuel none cbF2 w = (w, some invalidExc) :=
  ⟨rfl, rfl⟩

/-- C10: on a promise bound to a Rejected cell, `done(onSuccess)` with no
failure callback neither invokes nor queues the success callback and
returns the world exactly unchanged (state, value, error, both callback
lists and the trace); symmetrically `fail(onFail)` on a Resolved cell
changes nothing.  (The C++ functions return *this, the same promise, by
construction.) -/
theorem c10_done_fail_frame (fuel cid : Nat) (w : World) (ent : CellEntry)
    (s : RCB) (fb : ECB) (hg : getCell w cid = some ent) :
    (ent.cell.state = PromiseState.REJECTED →
      doneP fuel (some cid) (some s) none w = (w, none)) ∧
    (ent.cell.state = PromiseState.RESOLVED →
      failP fuel (some cid) (some fb) w = (w, none)) := by
  constructor
  · intro hs
    simp only [doneP, failP, hg, hs]
  · intro hs
    simp only [failP, hg, hs]

/-- Witness for C10 at concrete cells: a rejected cell for the `done`
half and a resolved cell for the `fail` half. -/
theorem c10_done_fail_frame_witness :
    (doneP 1 (some 0) (some (RCB.user 0)) none
        (newDeferredRejected ⟨true, "err"⟩ World.empty).1
      = ((newDeferredRejected ⟨true, "err"⟩ World.empty).1, none)) ∧
    (failP 1 (some 0) (some (ECB.user 0))
        (newDeferredResolved (Val.vint 7) World.empty).1
      = ((newDeferredResolved (Val.vint 7) World.empty).1, none)) :=
  ⟨(c10_done_fail_frame 1 0 (newDeferredRejected ⟨true, "err"⟩ World.empty).1
      ⟨⟨.REJECTED, none, some ⟨true, "err"⟩, [], []⟩, 1, 0⟩ (RCB.user 0)
      (ECB.user 0) rfl).1 rfl,
   (c10_done_fail_frame 1 0 (newDeferredResolved (Val.vint 7) World.empty).1
      ⟨⟨.RESOLVED, some (Val.vint 7), none, [], []⟩, 1, 0⟩ (RCB.user 0)
      (ECB.user 0) rfl).2 rfl⟩

/-- C8: for every value v and callback, constructing a Deferred
pre-resolved with v (Deferred(T), Deferred.h line 101), taking its
promise, and calling done(onSuccess) invokes onSuccess(v) exactly once -
the trace gains exactly the one event - synchronously within the call to
done, and queues nothing: the final world is exactly the input world plus
that single trace event, with the resolve-callback list still empty. -/
theorem c8_pre_resolved_done_fires_once (v : Val) (k : Nat) :
    doneP 2 (some 0) (some (RCB.user k)) none
        (promiseOf 0 (newDeferredResolved v World.empty).1).1
      = (⟨[some ⟨⟨.RESOLVED, some v, none, [], []⟩, 1, 1⟩],
          [Event.sCall k v]⟩, none) :=
  rfl

/-- C4: then-composition, modelled from the spec because `_doPromiseThen`
is not defined under src/ (see `thenOp`).  For every resolved promise
with value v and every success handler returning a value (embedded as
`fun x => Except.ok (g x)` for an arbitrary transformation g), `then`
returns a fresh promise that is Resolved with the handler's return value
g v, with no exception escaping; in particular for value 5 and
onSuccess = x => x * 2 the returned promise resolves to 10. -/
theorem c4_then_resolves_to_handler_value (v : Val) (g : Val → Val) :
    ((thenOp 3 (some 0) (some (fun x => Except.ok (g x))) none
        (newDeferredResolved v World.empty).1).2 = Except.ok 1 ∧
     cellStateAt (thenOp 3 (some 0) (some (fun x => Except.ok (g x))) none
        (newDeferredResolved v World.empty).1).1 1
        = some PromiseState.RESOLVED ∧
     cellValueAt (thenOp 3 (some 0) (some (fun x => Except.ok (g x))) none
        (newDeferredResolved v World.empty).1).1 1 = some (g v)) ∧
    cellValueAt (thenOp 3 (some 0)
        (some (fun x => Except.ok (match x with
          | .vint n => Val.vint (n * 2)
          | x => x))) none
        (newDeferredResolved (Val.vint 5) World.empty).1).1 1
      = some (Val.vint 10) :=
  ⟨⟨rfl, rfl, rfl⟩, rfl⟩

/-- C5: thenPipe flattening (Deferred.h lines 249-274).  Part one: for
every resolved promise with value v and success handler returning a
freshly resolved Promise (Promise<U>(g x)), the promise thenPipe returns
is Resolved with g v - one level of nesting flattened; in particular for
value 3 and a handler returning a resolved Promise of the decimal string
of its argument, it resolves to "3".  Part two: when the handler returns
a handle to a still-pending promise (cell 1), the returned promise
(cell 2) is still pending right after thenPipe, and settles exactly when
and how cell 1 settles: resolving cell 1 with u resolves cell 2 with u,
rejecting cell 1 with e rejects cell 2 with e. -/
theorem c5_thenPipe_flattens (v u : Val) (e : Exc) (g : Val → Val) :
    (((thenPipe1 3 (some 0) (fun x => HRes.newResolved (g x))
        (newDeferredResolved v World.empty).1).2 = Except.ok 1) ∧
     cellStateAt (thenPipe1 3 (some 0) (fun x => HRes.newResolved (g x))
        (newDeferredResolved v World.empty).1).1 1 = some PromiseState.RESOLVED ∧
     cellValueAt (thenPipe1 3 (some 0) (fun x => HRes.newResolved (g x))
        (newDeferredResolved v World.empty).1).1 1 = some (g v) ∧
     cellValueAt (thenPipe1 3 (some 0)
        (fun x => HRes.newResolved (match x with
          | .vint n => Val.vstr (toString n)
          | x => x))
        (newDeferredResolved (Val.vint 3) World.empty).1).1 1
        = some (Val.vstr "3")) ∧
    ((thenPipe1 3 (some 0) (fun _ => HRes.retCell 1)
        (newDeferredPending (newDeferredResolved v World.empty).1).1).2
        = Except.ok 2 ∧
     cellStateAt (thenPipe1 3 (some 0) (fun _ => HRes.retCell 1)
        (newDeferredPending (newDeferredResolved v World.empty).1).1).1 2
        = some PromiseState.PENDING ∧
     (cellValueAt (resolveD 3 1 u
        (thenPipe1 3 (some 0) (fun _ => HRes.retCell 1)
          (newDeferredPending (newDeferredResolved v World.empty).1).1).1).1 2
        = some u ∧
      cellStateAt (resolveD 3 1 u
        (thenPipe1 3 (some 0) (fun _ => HRes.retCell 1)
          (newDeferredPending (newDeferredResolved v World.empty).1).1).1).1 2
        = some PromiseState.RESOLVED) ∧
     (cellErrAt (rejectD 3 1 e
        (thenPipe1 3 (some 0) (fun _ => HRes.retCell 1)
          (newDeferredPending (newDeferredResolved v World.empty).1).1).1).1 2
        = some e ∧
      cellStateAt (rejectD 3 1 e
        (thenPipe1 3 (some 0) (fun _ => HRes.retCell 1)
          (newDeferredPending (newDeferredResolved v World.empty).1).1).1).1 2
        = some PromiseState.REJECTED)) :=
  ⟨⟨rfl, rfl, rfl, rfl⟩, ⟨rfl, rfl, ⟨rfl, rfl⟩, ⟨rfl, rfl⟩⟩⟩

/-- C6 fails as stated: thenPipe wraps the handler call in
`catch (std::exception e)` (Deferred.h lines 262-265), so an exception
NOT derived from std::exception is not caught.  Concretely, on a resolved
Promise with value 5 a handler that throws a non-std::exception payload
makes that exception propagate out of thenPipe to the caller instead of
rejecting the derived promise. -/
theorem c6_counterexample :
    (thenPipe1 3 (some 0) (fun _ => HRes.throwE ⟨false, "int thrown"⟩)
        (newDeferredResolved (Val.vint 5) World.empty).1).2
      = Except.error ⟨false, "int thrown"⟩ :=
  rfl

/-- C6 amended: (a) for thenPipe, a handler exception DERIVED FROM
std::exception is caught and becomes a rejection of the derived promise
carrying that payload (std::current_exception), while the original
promise keeps its state, value and error; (b) a non-std::exception
payload propagates to the caller of thenPipe (the derived cell is
destroyed by unwinding), the original promise again unchanged; (c) for
the spec-modelled `then`, any handler error rejects the derived promise
and leaves the original unchanged; (d) the failure handler of the
two-handler thenPipe behaves like (a). -/
theorem c6_amended_handler_exceptions (v : Val) (s : String) (e e2 : Exc) :
    (((thenPipe1 3 (some 0) (fun _ => HRes.throwE ⟨true, s⟩)
        (newDeferredResolved v World.empty).1).2 = Except.ok 1) ∧
     cellStateAt (thenPipe1 3 (some 0) (fun _ => HRes.throwE ⟨true, s⟩)
        (newDeferredResolved v World.empty).1).1 1 = some PromiseState.REJECTED ∧
     cellErrAt (thenPipe1 3 (some 0) (fun _ => HRes.throwE ⟨true, s⟩)
        (newDeferredResolved v World.empty).1).1 1 = some ⟨true, s⟩ ∧
     cellStateAt (thenPipe1 3 (some 0) (fun _ => HRes.throwE ⟨true, s⟩)
        (newDeferredResolved v World.empty).1).1 0 = some PromiseState.RESOLVED ∧
     cellValueAt (thenPipe1 3 (some 0) (fun _ => HRes.throwE ⟨true, s⟩)
        (newDeferredResolved v World.empty).1).1 0 = some v ∧
     cellErrAt (thenPipe1 3 (some 0) (fun _ => HRes.throwE ⟨true, s⟩)
        (newDeferredResolved v World.empty).1).1 0 = none) ∧
    (((thenPipe1 3 (some 0) (fun _ => HRes.throwE ⟨false, s⟩)
        (newDeferredResolved v World.empty).1).2 = Except.error ⟨false, s⟩) ∧
     cellStateAt (thenPipe1 3 (some 0) (fun _ => HRes.throwE ⟨false, s⟩)
        (newDeferredResolved v World.empty).1).1 1 = none ∧
     cellStateAt (thenPipe1 3 (some 0) (fun _ => HRes.throwE ⟨false, s⟩)
        (newDeferredResolved v World.empty).1).1 0 = some PromiseState.RESOLVED ∧
     cellValueAt (thenPipe1 3 (some 0) (fun _ => HRes.throwE ⟨false, s⟩)
        (newDeferredResolved v World.empty).1).1 0 = some v) ∧
    (((thenOp 3 (some 0) (some (fun _ => Except.error e)) none
        (newDeferredResolved v World.empty).1).2 = Except.ok 1) ∧
     cellStateAt (thenOp 3 (some 0) (some (fun _ => Except.error e)) none
        (newDeferredResolved v World.empty).1).1 1 = some PromiseState.REJECTED ∧
     cellErrAt (thenOp 3 (some 0) (some (fun _ => Except.error e)) none
        (newDeferredResolved v World.empty).1).1 1 = some e ∧
     cellStateAt (thenOp 3 (some 0) (some (fun _ => Except.error e)) none
        (newDeferredResolved v World.empty).1).1 0 = some PromiseState.RESOLVED ∧
     cellValueAt (thenOp 3 (some 0) (some (fun _ => Except.error e)) none
        (newDeferredResolved v World.empty).1).1 0 = some v) ∧
    (((thenPipe2 3 (some 0) (fun x => HRes.newResolved x)
          (fun _ => HRes.throwE ⟨true, s⟩)
        (newDeferredRejected e2 World.empty).1).2 = Except.ok 1) ∧
     cellStateAt (thenPipe2 3 (some 0) (fun x => HRes.newResolved x)
          (fun _ => HRes.throwE ⟨true, s⟩)
        (newDeferredRejected e2 World.empty).1).1 1 = some PromiseState.REJECTED ∧
     cellErrAt (thenPipe2 3 (some 0) (fun x => HRes.newResolved x)
          (fun _ => HRes.throwE ⟨true, s⟩)
        (newDeferredRejected e2 World.empty).1).1 1 = some ⟨true, s⟩ ∧
     cellStateAt (thenPipe2 3 (some 0) (fun x => HRes.newResolved x)
          (fun _ => HRes.throwE ⟨true, s⟩)
        (newDeferredRejected e2 World.empty).1).1 0 = some PromiseState.REJECTED ∧
     cellErrAt (thenPipe2 3 (some 0) (fun x => HRes.newResolved x)
          (fun _ => HRes.throwE ⟨true, s⟩)
        (newDeferredRejected e2 World.empty).1).1 0 = some e2) :=
  ⟨⟨rfl, rfl, rfl, rfl, rfl, rfl⟩, ⟨rfl, rfl, rfl, rfl⟩,
   ⟨rfl, rfl, rfl, rfl, rfl⟩, ⟨rfl, rfl, rfl, rfl, rfl⟩⟩

/-- C7: convert_cast, modelled from the spec because the converting
constructor Promise<U>(Promise<T>) lives in variant.h, absent from src/
(see `convert_cast`).  For every resolved promise with value v: when the
conversion succeeds (an arbitrary total conversion g), the returned
promise is Resolved with the converted value; when the conversion fails
with error e, convert_cast still returns normally (no exception escapes,
no crash) and the returned promise is Rejected with exactly that
conversion error, the original promise unchanged. -/
theorem c7_convert_cast (v : Val) (g : Val → Val) (e : Exc) :
    (((convert_cast 3 (some 0) (fun x => Except.ok (g x))
        (newDeferredResolved v World.empty).1).2 = Except.ok 1) ∧
     cellStateAt (convert_cast 3 (some 0) (fun x => Except.ok (g x))
        (newDeferredResolved v World.empty).1).1 1 = some PromiseState.RESOLVED ∧
     cellValueAt (convert_cast 3 (some 0) (fun x => Except.ok (g x))
        (newDeferredResolved v World.empty).1).1 1 = some (g v)) ∧
    (((convert_cast 3 (some 0) (fun _ => Except.error e)
        (newDeferredResolved v World.empty).1).2 = Except.ok 1) ∧
     cellStateAt (convert_cast 3 (some 0) (fun _ => Except.error e)
        (newDeferredResolved v World.empty).1).1 1 = some PromiseState.REJECTED ∧
     cellErrAt (convert_cast 3 (some 0) (fun _ => Except.error e)
        (newDeferredResolved v World.empty).1).1 1 = some e ∧
     cellStateAt (convert_cast 3 (some 0) (fun _ => Except.error e)
        (newDeferredResolved v World.empty).1).1 0 = some PromiseState.RESOLVED ∧
     cellValueAt (convert_cast 3 (some 0) (fun _ => Except.error e)
        (newDeferredResolved v World.empty).1).1 0 = some v) :=
  ⟨⟨rfl, rfl, rfl⟩, ⟨rfl, rfl, rfl, rfl, rfl⟩⟩

/-- C1 fails on the code: `StateData::resolve` and `StateData::reject`
(Deferred.h lines 71-88) never check the current state.  Concretely, on a
cell already Resolved with value 1, a second resolve(2) changes the
stored value to 2 (not "unchanged"), and a reject on the same resolved
cell changes the state to REJECTED and stores the error. -/
theorem c1_counterexample :
    cellValueAt (resolveD 2 0 (Val.vint 2)
        (newDeferredResolved (Val.vint 1) World.empty).1).1 0
      = some (Val.vint 2) ∧
    some (Val.vint 2) ≠ some (Val.vint 1) ∧
    cellStateAt (rejectD 2 0 ⟨true, "late"⟩
        (newDeferredResolved (Val.vint 1) World.empty).1).1 0
      = some PromiseState.REJECTED ∧
    cellErrAt (rejectD 2 0 ⟨true, "late"⟩
        (newDeferredResolved (Val.vint 1) World.empty).1).1 0
      = some ⟨true, "late"⟩ := by
  decide

/-- C1 amended: once a cell has settled, a later resolve or reject
invokes no callback (the lists were drained at settlement, and the trace
stays unchanged in every equation below) but DOES overwrite the cell:
resolve(v2) sets state to Resolved and the stored value to v2, keeping
the stored error; reject(e2) sets state to Rejected and the stored error
to e2, keeping the stored value.  Shown by exact whole-world equations on
a cell settled by the pre-resolved constructor, on one settled by the
pre-rejected constructor, and on one resolved with a previously
registered callback (which fired once at the first resolve and is not
re-invoked by the second). -/
theorem c1_amended_settle_overwrites (v1 v2 : Val) (e1 e2 : Exc) :
    resolveD 2 0 v2 (newDeferredResolved v1 World.empty).1
      = (⟨[some ⟨⟨.RESOLVED, some v2, none, [], []⟩, 1, 0⟩], []⟩, none) ∧
    rejectD 2 0 e2 (newDeferredResolved v1 World.empty).1
      = (⟨[some ⟨⟨.REJECTED, some v1, some e2, [], []⟩, 1, 0⟩], []⟩, none) ∧
    resolveD 2 0 v2 (newDeferredRejected e1 World.empty).1
      = (⟨[some ⟨⟨.RESOLVED, some v2, some e1, [], []⟩, 1, 0⟩], []⟩, none) ∧
    rejectD 2 0 e2 (newDeferredRejected e1 World.empty).1
      = (⟨[some ⟨⟨.REJECTED, none, some e2, [], []⟩, 1, 0⟩], []⟩, none) ∧
    resolveD 2 0 v2
        (resolveD 3 0 v1
          (doneP 2 (some 0) (some (RCB.user 0)) none
            (promiseOf 0 (newDeferredPending World.empty).1).1).1).1
      = (⟨[some ⟨⟨.RESOLVED, some v2, none, [], []⟩, 1, 1⟩],
          [Event.sCall 0 v1]⟩, none) :=
  ⟨rfl, rfl, rfl, rfl, rfl⟩

/-- C2 fails on the code: after resolve(1) then resolve(2), a callback
registered via done AFTER the second call observes 2, not the first
value 1.  The trace of the full scenario (register callback 0; resolve 1,
which fires it with 1; resolve 2, which re-fires nothing; register
callback 1) is exactly [sCall 0 1, sCall 1 2], and the event the
later-registered callback got differs from the one the claim requires. -/
theorem c2_counterexample :
    (doneP 2 (some 0) (some (RCB.user 1)) none
        (resolveD 2 0 (Val.vint 2)
          (resolveD 3 0 (Val.vint 1)
            (doneP 2 (some 0) (some (RCB.user 0)) none
              (promiseOf 0 (newDeferredPending World.empty).1).1).1).1).1).1.trace
      = [Event.sCall 0 (Val.vint 1), Event.sCall 1 (Val.vint 2)] ∧
    Event.sCall 1 (Val.vint 2) ≠ Event.sCall 1 (Val.vint 1) := by
  decide

/-- C2 amended: a second resolve(v2) after resolve(v1) does not
re-invoke the already-fired callback (the trace still holds exactly its
single invocation with v1) but overwrites the stored value, so a
callback registered via done after the second call is invoked exactly
once with v2 - the latest value - not with v1.  Whole-world equations
for arbitrary values and callback identities. -/
theorem c2_amended_second_resolve (v1 v2 : Val) (k1 k2 : Nat) :
    resolveD 2 0 v2
        (resolveD 3 0 v1
          (doneP 2 (some 0) (some (RCB.user k1)) none
            (promiseOf 0 (newDeferredPending World.empty).1).1).1).1
      = (⟨[some ⟨⟨.RESOLVED, some v2, none, [], []⟩, 1, 1⟩],
          [Event.sCall k1 v1]⟩, none) ∧
    doneP 2 (some 0) (some (RCB.user k2)) none
        (resolveD 2 0 v2
          (resolveD 3 0 v1
            (doneP 2 (some 0) (some (RCB.user k1)) none
              (promiseOf 0 (newDeferredPending World.empty).1).1).1).1).1
      = (⟨[some ⟨⟨.RESOLVED, some v2, none, [], []⟩, 1, 1⟩],
          [Event.sCall k1 v1, Event.sCall k2 v2]⟩, none) :=
  ⟨rfl, rfl⟩

/-- C3 fails on the code: ~StateData (Deferred.h lines 66-70) only runs
when the shared_ptr count of the cell reaches zero, i.e. when the last
handle of ANY kind is destroyed - Promise handles keep the cell alive
just as Deferred handles do.  Concretely: a pending cell whose consumer
registered a rejection callback and still holds its Promise handle; after
the only Deferred (controller) handle is dropped, no callback has been
invoked (empty trace), no exception is raised, and the cell is still
PENDING - the waiting consumer IS left hanging, contradicting the claim
that dropping every controller handle fires the abandoned rejection. -/
theorem c3_counterexample :
    (dropDeferred 2 0
        (failP 2 (some 0) (some (ECB.user 0))
          (promiseOf 0 (newDeferredPending World.empty).1).1).1).1.trace = [] ∧
    cellStateAt (dropDeferred 2 0
        (failP 2 (some 0) (some (ECB.user 0))
          (promiseOf 0 (newDeferredPending World.empty).1).1).1).1 0
      = some PromiseState.PENDING ∧
    (dropDeferred 2 0
        (failP 2 (some 0) (some (ECB.user 0))
          (promiseOf 0 (newDeferredPending World.empty).1).1).1).2 = none := by
  decide

/-- C3 amended: the "Deferred object destroyed: 1" (abandoned) rejection
fires only when the LAST handle of any kind referencing a still-pending
cell with a non-empty rejection-callback list is destroyed.  For a
pending cell with one controller handle, one consumer handle, and any
non-empty list of registered rejection callbacks: dropping the
controller handle alone changes only the reference count (nothing fires,
the cell stays PENDING); dropping the consumer handle afterwards runs
~StateData, which rejects with the abandoned error, invoking every
registered rejection callback in registration order with that error, and
frees the cell. -/
theorem c3_amended_abandon_on_last_handle (ids : List Nat) (f : Nat)
    (tr : List Event) (hne : ids ≠ []) (hf : ids.length + 1 ≤ f) :
    dropDeferred f 0
        ⟨[some ⟨⟨.PENDING, none, none, [], ids.map ECB.user⟩, 1, 1⟩], tr⟩
      = (⟨[some ⟨⟨.PENDING, none, none, [], ids.map ECB.user⟩, 0, 1⟩], tr⟩, none) ∧
    dropPromise f 0
        ⟨[some ⟨⟨.PENDING, none, none, [], ids.map ECB.user⟩, 0, 1⟩], tr⟩
      = (⟨[none], tr ++ ids.map (fun k => Event.fCall k abandonedExc)⟩, none) := by
  constructor
  · rfl
  · cases f with
    | zero => exact absurd hf (by simp)
    | succ f2 =>
      have hlen : (ids.map ECB.user).length ≠ 0 := by simpa using hne
      have hf2 : ids.length ≤ f2 := by omega
      show destructState (Nat.succ f2) 0
          ⟨[some ⟨⟨.PENDING, none, none, [], ids.map ECB.user⟩, 0, 0⟩], tr⟩ = _
      show (if (PromiseState.PENDING = PromiseState.PENDING ∧
                (ids.map ECB.user).length ≠ 0) then
              match exec (Nat.succ f2) (.rej 0 abandonedExc)
                ⟨[some ⟨⟨.PENDING, none, none, [], ids.map ECB.user⟩, 0, 0⟩], tr⟩ with
              | (w1, ex) => (free w1 0, ex)
            else (free ⟨[some ⟨⟨.PENDING, none, none, [], ids.map ECB.user⟩, 0, 0⟩], tr⟩ 0,
                  none)) = _
      rw [if_pos ⟨rfl, hlen⟩]
      have h3 : exec (Nat.succ f2) (.rej 0 abandonedExc)
          ⟨[some ⟨⟨.PENDING, none, none, [], ids.map ECB.user⟩, 0, 0⟩], tr⟩
          = (match exec f2 (.runE (ids.map ECB.user) abandonedExc)
              ⟨[some ⟨⟨.REJECTED, none, some abandonedExc, [], ids.map ECB.user⟩, 0, 0⟩], tr⟩ with
             | (w2, some e2) => (w2, some e2)
             | (w2, none) =>
               match getCell w2 0 with
               | none => (w2, none)
               | some ent2 => (updCell w2 0 { ent2.cell with rejectList := [] }, none)) :=
        rfl
      rw [h3, exec_runE_users ids f2 abandonedExc _ hf2]
      rfl

/-- Witness for C3 amended at a singleton callback list and fuel 2. -/
theorem c3_amended_abandon_on_last_handle_witness :
    (dropDeferred 2 0
        ⟨[some ⟨⟨.PENDING, none, none, [], [ECB.user 0]⟩, 1, 1⟩], []⟩
      = (⟨[some ⟨⟨.PENDING, none, none, [], [ECB.user 0]⟩, 0, 1⟩], []⟩, none)) ∧
    dropPromise 2 0
        ⟨[some ⟨⟨.PENDING, none, none, [], [ECB.user 0]⟩, 0, 1⟩], []⟩
      = (⟨[none], [Event.fCall 0 abandonedExc]⟩, none) :=
  c3_amended_abandon_on_last_handle [0] 2 [] (by decide) (by decide)

end FB

